import Mathlib

/-!
Shallow embedding of the Connectry client tier (Next.js + Supabase).

JavaScript strings that undergo `trim` are modelled as `List Char` (`JStr`);
strings that are only stored and compared (ids, labels, error messages) are
modelled as `String`.  Timestamps (`created_at`, `updated_at`) are modelled as
`Nat`.  Backend calls are modelled by passing in the table rows the query would
see (filters and `order by` clauses are applied in the embedding, mirroring the
query the page issues) together with a success/failure outcome for each write.
-/

namespace Connectry

/-- JavaScript string value, as a list of characters. -/
abbrev JStr := List Char

/-- Model of JavaScript `String.prototype.trim`: drop whitespace at both ends. -/
def strTrim (s : JStr) : JStr :=
  ((s.dropWhile Char.isWhitespace).reverse.dropWhile Char.isWhitespace).reverse

/-- JavaScript truthiness of a `boolean | null` value (`null` is falsy). -/
def jsTruthy : Option Bool → Bool
  | none => false
  | some b => b

/-- The four request statuses (`type Status` in `app/requests/[id]/page.tsx`). -/
inductive Status
  | pending
  | accepted
  | rejected
  | closed
deriving DecidableEq, Repr

/-- Account role (`'creator' | 'client'`). -/
inductive Role
  | creator
  | client
deriving DecidableEq, Repr

/-- Row of the `requests` table (`type RequestRow` in `app/requests/[id]/page.tsx`). -/
structure RequestRow where
  id : String
  title : JStr
  message : JStr
  status : Status
  creator_id : String
  client_id : String
  work_id : Option String
  created_at : Nat
  updated_at : Nat
deriving DecidableEq, Repr

/-- Profile row as selected by the request detail page (`id, display_name, role`). -/
structure ProfileRow where
  id : String
  display_name : Option String
  role : Option Role
deriving DecidableEq, Repr

/-- Work row as selected by the request detail page (`id, title`). -/
structure WorkMini where
  id : String
  title : String
deriving DecidableEq, Repr

/-- Message row as selected by the request detail page
(`id, sender_id, body, created_at`). -/
structure MessageRow where
  id : String
  sender_id : String
  body : JStr
  created_at : Nat
deriving DecidableEq, Repr

/-- Full row of the `messages` table (also carries `request_id` and `is_read`,
used by the queries in `AppHeader` and the request detail page). -/
structure MessagesTableRow where
  id : String
  request_id : String
  sender_id : String
  body : JStr
  created_at : Nat
  is_read : Bool
deriving DecidableEq, Repr

/-- Row of the `works` table (superset of the columns selected by the works
screens; each screen's `select` projects out of this row). -/
structure WorksTableRow where
  id : String
  creator_id : String
  title : String
  description : Option String
  image_url : Option String
  tags : Option String
  is_public : Option Bool
  created_at : Nat
deriving DecidableEq, Repr

namespace RequestDetail

/-- `type ViewModel` of `app/requests/[id]/page.tsx`. -/
structure ViewModel where
  request : RequestRow
  creator : Option ProfileRow
  client : Option ProfileRow
  work : Option WorkMini
  messages : List MessageRow
  currentUserId : Option String
  isCreator : Bool
  isClient : Bool
deriving DecidableEq, Repr

/-- Local React state of `RequestDetailPage` (after the initial load finished). -/
structure PageState where
  view : Option ViewModel
  status : Status
  statusMessage : Option String
  updatingStatus : Bool
  newMessage : JStr
  sending : Bool
  errorMsg : Option String
deriving DecidableEq, Repr

/-- The `useState` initial values of `RequestDetailPage`. -/
def initialPageState : PageState :=
  { view := none, status := .pending, statusMessage := none, updatingStatus := false,
    newMessage := [], sending := false, errorMsg := none }

def requestFetchFailText : String := "依頼の情報を取得できませんでした。削除された可能性があります。"

def permissionDeniedText : String := "この依頼を見る権限がありません。"

def statusUpdateFailText : String := "ステータスの更新に失敗しました。時間をおいて再度お試しください。"

def sendFailText : String := "メッセージの送信に失敗しました。時間をおいて再度お試しください。"

def requestNotFoundText : String := "依頼が見つかりませんでした。"

def acceptSuccessText : String := "この依頼を「受ける」として受付しました。メッセージで詳細を相談できます。"

def rejectSuccessText : String := "この依頼を「お断りする」として処理しました。"

def closeSuccessText : String := "この依頼をクローズしました。"

/-- The messages query of the init effect: `from('messages').select(...)
.eq('request_id', requestId).order('created_at', { ascending: true })`. -/
def fetchThreadMessages (table : List MessagesTableRow) (requestId : String) :
    List MessageRow :=
  (List.insertionSort (fun a b : MessagesTableRow => a.created_at ≤ b.created_at)
      (table.filter (fun m => m.request_id == requestId))).map
    (fun m => { id := m.id, sender_id := m.sender_id, body := m.body,
                created_at := m.created_at })

/-- The `init` effect of `RequestDetailPage`, run on the initial state.
`currentUserId` is the logged-in user (if any), `reqFetch` the result of the
`requests` single-row query (`none` models error or missing row), `profilesFetch`
the related-profiles query result, `workFetch` the work-title query result and
`messagesTable` the rows of the `messages` table seen by the thread query. -/
def initRequestDetail (currentUserId : Option String) (reqFetch : Option RequestRow)
    (profilesFetch : List ProfileRow) (workFetch : Option WorkMini)
    (messagesTable : List MessagesTableRow) : PageState :=
  match reqFetch with
  | none => { initialPageState with errorMsg := some requestFetchFailText }
  | some request =>
    let creator := profilesFetch.foldl
      (fun acc p => if p.id == request.creator_id then some p else acc) none
    let client := profilesFetch.foldl
      (fun acc p => if p.id == request.client_id then some p else acc) none
    let work : Option WorkMini :=
      match request.work_id with
      | some _ => workFetch
      | none => none
    let messages := fetchThreadMessages messagesTable request.id
    let isCreator := currentUserId.isSome && currentUserId == some request.creator_id
    let isClient := currentUserId.isSome && currentUserId == some request.client_id
    if !isCreator && !isClient then
      { initialPageState with
        status := request.status,
        errorMsg := some permissionDeniedText }
    else
      { initialPageState with
        status := request.status,
        view := some { request := request, creator := creator, client := client,
                       work := work, messages := messages,
                       currentUserId := currentUserId,
                       isCreator := isCreator, isClient := isClient } }

/-- The three status buttons of the detail screen. -/
inductive StatusAction
  | accept
  | reject
  | close
deriving DecidableEq, Repr

/-- `const canOperateStatus = isCreator && (status === 'pending' || status === 'accepted')`. -/
def canOperateStatus (isCreator : Bool) (status : Status) : Bool :=
  isCreator && (status == .pending || status == .accepted)

/-- The status buttons actually rendered: inside the `canOperateStatus` block,
`accept`/`reject` render while `status === 'pending'` and `close` renders while
`status === 'accepted'`. -/
def renderedStatusActions (isCreator : Bool) (status : Status) : List StatusAction :=
  if canOperateStatus isCreator status then
    (if status == .pending then [.accept, .reject] else []) ++
      (if status == .accepted then [.close] else [])
  else []

/-- The status value each button writes. -/
def actionTarget : StatusAction → Status
  | .accept => .accepted
  | .reject => .rejected
  | .close => .closed

/-- The flash message each button passes to `updateStatus`. -/
def actionSuccessText : StatusAction → String
  | .accept => acceptSuccessText
  | .reject => rejectSuccessText
  | .close => closeSuccessText

/-- Database writes issued by the request detail page. -/
inductive DbWrite
  | statusUpdate (requestId : String) (next : Status)
  | messageInsert (requestId : String) (senderId : String) (body : JStr)
deriving DecidableEq, Repr

/-- `updateStatus(next, successMessage)`: issues
`from('requests').update({ status: next }).eq('id', view.request.id)` (`ok` is the
write outcome, `now` the clock used for the optimistic `updated_at`), then
either records the error or optimistically updates the local copy. -/
def updateStatus (s : PageState) (next : Status) (successMessage : String)
    (ok : Bool) (now : Nat) : PageState × List DbWrite :=
  match s.view with
  | none => (s, [])
  | some v =>
    if ok then
      ({ s with
         status := next,
         view := some { v with
                        request := { v.request with
                                     status := next, updated_at := now } },
         statusMessage := some successMessage,
         errorMsg := none,
         updatingStatus := false },
       [.statusUpdate v.request.id next])
    else
      ({ s with
         errorMsg := some statusUpdateFailText,
         statusMessage := none,
         updatingStatus := false },
       [.statusUpdate v.request.id next])

/-- `handleSendMessage`: issues `from('messages').insert({ request_id, sender_id,
body })` and on success appends the returned row to the in-memory list and clears
the draft; on failure (`result = none`) records the error. -/
def handleSendMessage (s : PageState) (result : Option MessageRow) :
    PageState × List DbWrite :=
  match s.view with
  | none => (s, [])
  | some v =>
    match v.currentUserId with
    | none => (s, [])
    | some uid =>
      if (strTrim s.newMessage).isEmpty then (s, [])
      else
        let body := strTrim s.newMessage
        match result with
        | none =>
          ({ s with
             errorMsg := some sendFailText,
             sending := false },
           [.messageInsert v.request.id uid body])
        | some row =>
          ({ s with
             view := some { v with messages := v.messages ++ [row] },
             newMessage := [],
             errorMsg := none,
             sending := false },
           [.messageInsert v.request.id uid body])

/-- `view.currentUserId && status !== 'rejected' && status !== 'closed'`:
the condition under which the message form is rendered. -/
def sendFormShownB (v : ViewModel) (status : Status) : Bool :=
  v.currentUserId.isSome && status != .rejected && status != .closed

/-- User/backend events the rendered detail screen can react to. -/
inductive Event
  | clickStatus (a : StatusAction) (ok : Bool) (now : Nat)
  | editDraft (t : JStr)
  | clickSend (result : Option MessageRow)
deriving DecidableEq, Repr

/-- One step of the rendered page: an event only reaches a handler when the
corresponding control is rendered and enabled (when `errorMsg` is set or `view`
is empty, the page renders the error screen only, so every event is a no-op). -/
def stepEv (s : PageState) (e : Event) : PageState × List DbWrite :=
  match s.errorMsg, s.view with
  | none, some v =>
    match e with
    | .clickStatus a ok now =>
      if (renderedStatusActions v.isCreator s.status).contains a && !s.updatingStatus then
        updateStatus s (actionTarget a) (actionSuccessText a) ok now
      else (s, [])
    | .editDraft t =>
      if sendFormShownB v s.status then ({ s with newMessage := t }, [])
      else (s, [])
    | .clickSend result =>
      if sendFormShownB v s.status && !(s.sending || (strTrim s.newMessage).isEmpty) then
        handleSendMessage s result
      else (s, [])
  | _, _ => (s, [])

/-- Run a sequence of events. -/
def runTrace (s : PageState) : List Event → PageState
  | [] => s
  | e :: es => runTrace (stepEv s e).1 es

/-- All database writes issued along a sequence of events. -/
def runWrites (s : PageState) : List Event → List DbWrite
  | [] => []
  | e :: es => (stepEv s e).2 ++ runWrites (stepEv s e).1 es

/-- What the detail screen renders, by case of the early returns. -/
inductive RenderOut
  | errorScreen (msg : String)
  | detail (request : RequestRow) (creator : Option ProfileRow)
      (client : Option ProfileRow) (work : Option WorkMini)
      (messages : List MessageRow) (status : Status)
      (statusActions : List StatusAction) (sendFormShown : Bool)
deriving DecidableEq, Repr

/-- Render function of `RequestDetailPage` (after loading finished):
`if (errorMsg || !view)` show only the error box, otherwise show the request
data, the thread, the rendered status buttons and (conditionally) the form. -/
def render (s : PageState) : RenderOut :=
  match s.errorMsg, s.view with
  | some msg, _ => .errorScreen msg
  | none, none => .errorScreen requestNotFoundText
  | none, some v =>
    .detail v.request v.creator v.client v.work v.messages s.status
      (renderedStatusActions v.isCreator s.status) (sendFormShownB v s.status)

/-- The messages held in the local state. -/
def stateMsgs (s : PageState) : List MessageRow :=
  match s.view with
  | some v => v.messages
  | none => []

/-- For a single event: when it is a successful send, the returned row's
`created_at` is no earlier than every message currently in the local list. -/
abbrev stepMonotoneCond (s : PageState) : Event → Prop
  | .clickSend (some row) => ∀ m ∈ stateMsgs s, m.created_at ≤ row.created_at
  | _ => True

/-- Condition on traces assumed by the thread-order claim: the backend assigns
each successfully inserted message a `created_at` no earlier than every message
already in the local list at that moment. -/
def sendsMonotone : PageState → List Event → Prop
  | _, [] => True
  | s, e :: es => stepMonotoneCond s e ∧ sendsMonotone (stepEv s e).1 es

end RequestDetail

namespace WorksList

/-- The works-list query of `app/works/page.tsx`:
`from('works').select(...).eq('is_public', true).order('created_at',
{ ascending: false })`. -/
def worksPageFetch (table : List WorksTableRow) : List WorksTableRow :=
  List.insertionSort (fun a b : WorksTableRow => b.created_at ≤ a.created_at)
    (table.filter (fun w => w.is_public == some true))

end WorksList

namespace ProfilePage

/-- Profile row as selected by `app/profile/[id]/page.tsx`. -/
structure FullProfileRow where
  id : String
  display_name : Option String
  role : Option Role
  bio : Option String
  genre : Option String
  area : Option String
  instagram_url : Option String
deriving DecidableEq, Repr

/-- `type ViewModel` of the profile detail page. -/
structure ProfileViewModel where
  profile : FullProfileRow
  works : List WorksTableRow
  isMe : Bool
deriving DecidableEq, Repr

/-- Local state of `ProfileDetailPage` after the initial load. -/
structure ProfilePageState where
  view : Option ProfileViewModel
  errorMsg : Option String
deriving DecidableEq, Repr

def profileFetchFailText : String := "プロフィール情報を取得できませんでした。削除された可能性があります。"

/-- The `init` effect of `ProfileDetailPage`: fetch the profile; when it is a
creator, fetch that creator's works ordered newest first, and when the viewer is
not the profile owner keep only the works with `is_public === true`. -/
def initProfileDetail (currentUserId : Option String)
    (profileFetch : Option FullProfileRow) (worksTable : List WorksTableRow) :
    ProfilePageState :=
  match profileFetch with
  | none => { view := none, errorMsg := some profileFetchFailText }
  | some profile =>
    let isMe := currentUserId == some profile.id
    let works :=
      if profile.role == some .creator then
        let fetched := List.insertionSort
          (fun a b : WorksTableRow => b.created_at ≤ a.created_at)
          (worksTable.filter (fun w => w.creator_id == profile.id))
        if isMe then fetched
        else fetched.filter (fun w => w.is_public == some true)
      else []
    { view := some { profile := profile, works := works, isMe := isMe },
      errorMsg := none }

end ProfilePage

namespace WorkDetail

/-- Creator profile row as selected by `app/works/[id]/page.tsx`. -/
structure CreatorProfileRow where
  id : String
  display_name : Option String
  bio : Option String
  genre : Option String
  area : Option String
  instagram_url : Option String
deriving DecidableEq, Repr

/-- Local state of `WorkDetailPage` after the initial load. -/
structure WorkDetailState where
  work : Option WorksTableRow
  creatorProfile : Option CreatorProfileRow
  isOwner : Bool
  updatingVisibility : Bool
  errorMsg : Option String
deriving DecidableEq, Repr

def workFetchFailText : String := "作品の情報を取得できませんでした。削除された可能性があります。"

def workNotFoundText : String := "作品が見つかりませんでした。"

def visibilityUpdateFailText : String := "公開状態の更新に失敗しました。時間をおいて再度お試しください。"

/-- The `init` effect of `WorkDetailPage`: fetch the work by id (no
`is_public` condition appears in the query or afterwards), fetch the creator
profile, and set `isOwner` iff the logged-in user is the work's `creator_id`. -/
def initWorkDetail (workFetch : Option WorksTableRow)
    (profileFetch : Option CreatorProfileRow) (currentUserId : Option String) :
    WorkDetailState :=
  match workFetch with
  | none =>
    { work := none, creatorProfile := none, isOwner := false,
      updatingVisibility := false, errorMsg := some workFetchFailText }
  | some w =>
    { work := some w,
      creatorProfile := profileFetch,
      isOwner := currentUserId == some w.creator_id,
      updatingVisibility := false,
      errorMsg := none }

/-- What the work detail screen renders after loading:
`if (errorMsg || !work)` show only the error box, otherwise show the work
(title, image, description) with the owner actions iff `isOwner`. -/
inductive WorkDetailRender
  | errorScreen (msg : String)
  | workShown (work : WorksTableRow) (isOwner : Bool)
deriving DecidableEq, Repr

def workDetailRender (s : WorkDetailState) : WorkDetailRender :=
  match s.errorMsg, s.work with
  | some msg, _ => .errorScreen msg
  | none, none => .errorScreen workNotFoundText
  | none, some w => .workShown w s.isOwner

/-- `handleToggleVisibility`: `nextVisible = !work.is_public`, then
`from('works').update({ is_public: nextVisible }).eq('id', work.id)`; `ok` is
the outcome of that write.  On success the local copy is updated, on failure an
error message is recorded. -/
def handleToggleVisibility (s : WorkDetailState) (ok : Bool) : WorkDetailState :=
  match s.work with
  | none => s
  | some w =>
    let nextVisible := !(jsTruthy w.is_public)
    if ok then
      { s with
        work := some { w with is_public := some nextVisible },
        errorMsg := none,
        updatingVisibility := false }
    else
      { s with
        errorMsg := some visibilityUpdateFailText,
        updatingVisibility := false }

end WorkDetail

namespace RequestNew

/-- Payload of the `requests` insert issued by the new-request form
(`app/requests/new/RequestNewPageClient.tsx`). -/
structure RequestInsert where
  creator_id : String
  client_id : String
  work_id : Option String
  title : JStr
  message : JStr
  status : Status
  preferred_date : Option JStr
  budget : Option JStr
deriving DecidableEq, Repr

/-- Payload of the initial `messages` insert issued by the new-request form. -/
structure MessageInsert where
  request_id : String
  sender_id : String
  body : JStr
deriving DecidableEq, Repr

def creatorMissingText : String := "クリエイター情報が不足しています。"

def requiredFieldsText : String := "「依頼タイトル」と「依頼内容」は必須です。"

/-- Outcome of `handleSubmit` on the new-request form. -/
inductive SubmitOutcome
  | ignored
  | formError (msg : String)
  | submitted (req : RequestInsert) (firstMessage : MessageInsert)
deriving DecidableEq, Repr

/-- `handleSubmit` of `RequestNewPageClient` (success path of both backend
inserts): validate the form, insert one row into `requests` with
`status: 'pending'` and the trimmed title/message, then insert one row into
`messages` with the trimmed message as body.  `assignedRequestId` is the id the
backend returns for the created request. -/
def handleSubmit (currentProfile : Option ProfileRow)
    (creatorIdFromQuery : Option String) (workIdFromQuery : Option String)
    (title message preferredDate budget : JStr) (assignedRequestId : String) :
    SubmitOutcome :=
  match currentProfile with
  | none => .ignored
  | some profile =>
    match creatorIdFromQuery with
    | none => .formError creatorMissingText
    | some creatorId =>
      if (strTrim title).isEmpty || (strTrim message).isEmpty then
        .formError requiredFieldsText
      else
        .submitted
          { creator_id := creatorId,
            client_id := profile.id,
            work_id := (match workIdFromQuery with
                        | some w => if w == "" then none else some w
                        | none => none),
            title := strTrim title,
            message := strTrim message,
            status := .pending,
            preferred_date := if preferredDate.isEmpty then none else some preferredDate,
            budget := if budget.isEmpty then none else some budget }
          { request_id := assignedRequestId,
            sender_id := profile.id,
            body := strTrim message }

end RequestNew

namespace AppHeader

/-- The unread-count computation of `fetchHeaderInfo` in
`components/AppHeader.tsx`: fetch the ids of requests where the user is the
creator and those where the user is the client, dedupe them, and when there is
at least one, count the messages on those requests with `is_read = false` and a
`sender_id` different from the user. -/
def fetchHeaderUnreadCount (requestsTable : List RequestRow)
    (messagesTable : List MessagesTableRow) (userId : String) : Nat :=
  let asCreator := (requestsTable.filter (fun r => r.creator_id == userId)).map
    (fun r => r.id)
  let asClient := (requestsTable.filter (fun r => r.client_id == userId)).map
    (fun r => r.id)
  let requestIds := (asCreator ++ asClient).dedup
  if requestIds.isEmpty then 0
  else
    (messagesTable.filter (fun m =>
      requestIds.contains m.request_id && m.is_read == false
        && m.sender_id != userId)).length

/-- Modelled from the spec's words, for comparison with `fetchHeaderUnreadCount`:
the number of messages that belong to some request whose creator or client is
the current user, are unread, and were not sent by the current user. -/
def specUnreadCount (requestsTable : List RequestRow)
    (messagesTable : List MessagesTableRow) (userId : String) : Nat :=
  (messagesTable.filter (fun m =>
    requestsTable.any (fun r =>
      r.id == m.request_id && (r.creator_id == userId || r.client_id == userId))
      && m.is_read == false && m.sender_id != userId)).length

end AppHeader

namespace LikeButton

/-- Local state of `WorkLikeButton` (the `workId`/`creatorId` props plus the
`useState` pieces). -/
structure LikeState where
  workId : String
  creatorId : String
  currentUserId : Option String
  likeCount : Nat
  liked : Bool
  loading : Bool
  toggling : Bool
  errorMsg : Option String
deriving DecidableEq, Repr

/-- Effects of a click on the like button: a navigation to the login screen, or
a `work_likes` insert/delete. -/
inductive LikeEffect
  | redirectLogin (url : String)
  | insertLike (workId : String) (userId : String)
  | deleteLike (workId : String) (userId : String)
deriving DecidableEq, Repr

def likeAddFailText : String := "いいねの追加に失敗しました。時間をおいて再度お試しください。"

def likeRemoveFailText : String := "いいねの解除に失敗しました。時間をおいて再度お試しください。"

/-- The login redirect target used by `handleToggleLike`. -/
def loginNextUrl (workId : String) : String :=
  "/auth/login?next=/works/" ++ workId

/-- A click on the like button.  The button is `disabled` while
`loading || toggling || isOwner`, so a click is a no-op then; otherwise
`handleToggleLike` runs: redirect to login when logged out, return early for
the owner or while toggling, otherwise insert or delete the like row (`ok` is
the outcome of that write) and update the local count. -/
def handleToggleLike (s : LikeState) (ok : Bool) : LikeState × List LikeEffect :=
  if s.loading || s.toggling || (s.currentUserId == some s.creatorId) then (s, [])
  else
    let s0 := { s with errorMsg := none }
    match s.currentUserId with
    | none => (s0, [.redirectLogin (loginNextUrl s.workId)])
    | some uid =>
      if uid == s.creatorId then (s0, [])
      else if s0.toggling then (s0, [])
      else if !s0.liked then
        if ok then
          ({ s0 with liked := true, likeCount := s0.likeCount + 1, toggling := false },
           [.insertLike s.workId uid])
        else
          ({ s0 with errorMsg := some likeAddFailText, toggling := false },
           [.insertLike s.workId uid])
      else
        if ok then
          ({ s0 with liked := false, likeCount := s0.likeCount - 1, toggling := false },
           [.deleteLike s.workId uid])
        else
          ({ s0 with errorMsg := some likeRemoveFailText, toggling := false },
           [.deleteLike s.workId uid])

end LikeButton

namespace RequestDetail

/-- A sample request used to instantiate theorems with hypotheses. -/
def sampleRequest : RequestRow :=
  { id := "r1", title := "T".toList, message := "M".toList, status := .pending,
    creator_id := "c1", client_id := "k1", work_id := none, created_at := 1,
    updated_at := 1 }

/-- The detail-page state reached by the creator of `sampleRequest`. -/
def sampleCreatorState : PageState :=
  initRequestDetail (some "c1") (some sampleRequest) [] none []

/-- Invariant tying a detail-page state to the participants of the request it
was opened for. -/
def participantsInv (creatorId clientId : String) (s : PageState) : Prop :=
  ∀ v, s.view = some v →
    v.request.creator_id = creatorId ∧ v.request.client_id = clientId ∧
      (v.currentUserId = some v.request.creator_id ∨
        v.currentUserId = some v.request.client_id)

/-- The view model seen by the client of `sampleRequest`. -/
def sampleClientView : ViewModel :=
  { request := sampleRequest, creator := none, client := none, work := none,
    messages := [], currentUserId := some "k1", isCreator := false,
    isClient := true }

/-- A detail-page state of the client with a non-empty draft. -/
def sampleDraftState : PageState :=
  { initialPageState with view := some sampleClientView, newMessage := "hi".toList }

instance : IsTotal MessagesTableRow (fun a b => a.created_at ≤ b.created_at) :=
  ⟨fun a b => Nat.le_total a.created_at b.created_at⟩

instance : IsTrans MessagesTableRow (fun a b => a.created_at ≤ b.created_at) :=
  ⟨fun _ _ _ => Nat.le_trans⟩

end RequestDetail

/-- A private work owned by `"c1"`, used as concrete input. -/
def cexPrivateWork : WorksTableRow :=
  { id := "w1", creator_id := "c1", title := "t1", description := none,
    image_url := none, tags := none, is_public := some false, created_at := 1 }

/-- A public work owned by `"p1"`, used as concrete input. -/
def cexPublicWork : WorksTableRow :=
  { id := "w2", creator_id := "p1", title := "t2", description := none,
    image_url := none, tags := none, is_public := some true, created_at := 2 }

/-- A work whose `is_public` is `null`, used as concrete input. -/
def cexNullWork : WorksTableRow :=
  { id := "w3", creator_id := "c1", title := "t3", description := none,
    image_url := none, tags := none, is_public := none, created_at := 3 }

/-- A creator profile used as concrete input. -/
def sampleProfile : ProfilePage.FullProfileRow :=
  { id := "p1", display_name := none, role := some .creator, bio := none,
    genre := none, area := none, instagram_url := none }

/-- The profile view a stranger gets for `sampleProfile` when the works table
is `[cexPublicWork, cexPrivateWork]`. -/
def sampleProfileView : ProfilePage.ProfileViewModel :=
  { profile := sampleProfile, works := [cexPublicWork], isMe := false }

namespace RequestDetail

theorem updateStatus_writes {s : PageState} {next : Status} {msg : String}
    {ok : Bool} {now : Nat} {w : DbWrite}
    (h : w ∈ (updateStatus s next msg ok now).2) :
    ∃ v, s.view = some v ∧ w = .statusUpdate v.request.id next := by
  unfold updateStatus at h
  split at h
  · simp at h
  · rename_i v hv
    refine ⟨v, hv, ?_⟩
    split at h <;> simpa using h

theorem handleSendMessage_writes {s : PageState} {r : Option MessageRow}
    {w : DbWrite} (h : w ∈ (handleSendMessage s r).2) :
    ∃ v uid, s.view = some v ∧ v.currentUserId = some uid ∧
      (strTrim s.newMessage).isEmpty = false ∧
      w = .messageInsert v.request.id uid (strTrim s.newMessage) := by
  unfold handleSendMessage at h
  split at h
  · simp at h
  · rename_i v hv
    split at h
    · simp at h
    · rename_i uid hu
      split at h
      · simp at h
      · rename_i hne
        refine ⟨v, uid, hv, hu, by simpa using hne, ?_⟩
        split at h <;> simpa using h

theorem mem_renderedStatusActions :
    ∀ (isC : Bool) (st : Status) (a : StatusAction),
      (renderedStatusActions isC st).contains a = true →
      isC = true ∧
        ((st = .pending ∧ (actionTarget a = .accepted ∨ actionTarget a = .rejected)) ∨
          (st = .accepted ∧ actionTarget a = .closed)) := by
  intro isC st a
  cases isC <;> cases st <;> cases a <;> decide

/-- C1: on the request detail screen, a status-changing write is issued only
when the current user is the request's creator and the local status is
`pending` (writing `accepted` or `rejected`) or `accepted` (writing `closed`);
in particular no event issues a status write out of `rejected` or `closed`, and
the written value is a `Status`, hence one of the four defined values.  As the
statement quantifies over every page state, it covers every sequence of user
actions. -/
theorem statusUpdate_only_by_creator_from_open_status
    (s : PageState) (e : Event) (rid : String) (next : Status)
    (h : DbWrite.statusUpdate rid next ∈ (stepEv s e).2) :
    s.view.map ViewModel.isCreator = some true ∧
      ((s.status = .pending ∧ (next = .accepted ∨ next = .rejected)) ∨
        (s.status = .accepted ∧ next = .closed)) := by
  obtain ⟨view, status, sm, us, nm, snd, em⟩ := s
  cases em with
  | some m => simp [stepEv] at h
  | none =>
    cases view with
    | none => simp [stepEv] at h
    | some v =>
      cases e with
      | editDraft t =>
        simp only [stepEv] at h
        split at h <;> simp at h
      | clickSend r =>
        simp only [stepEv] at h
        split at h
        · obtain ⟨v', uid, hv', hu, hne, hw⟩ := handleSendMessage_writes h
          simp at hw
        · simp at h
      | clickStatus a ok now =>
        simp only [stepEv] at h
        split at h
        · rename_i hg
          obtain ⟨v', hv', hw⟩ := updateStatus_writes h
          simp only [Option.some.injEq] at hv'
          subst hv'
          obtain ⟨hw1, hw2⟩ := DbWrite.statusUpdate.inj hw
          have hc := (Bool.and_eq_true _ _).mp hg
          have hmem := mem_renderedStatusActions v.isCreator status a hc.1
          subst hw2
          exact ⟨by simp [hmem.1], hmem.2⟩
        · simp at h

/-- Witness for C1 at a concrete input: the creator clicking "accept" on a
pending request issues the `accepted` status write, and the theorem's
conclusion holds there. -/
theorem statusUpdate_only_by_creator_from_open_status_witness :
    sampleCreatorState.view.map ViewModel.isCreator = some true ∧
      ((sampleCreatorState.status = .pending ∧
          (Status.accepted = .accepted ∨ Status.accepted = .rejected)) ∨
        (sampleCreatorState.status = .accepted ∧ Status.accepted = .closed)) :=
  statusUpdate_only_by_creator_from_open_status sampleCreatorState
    (.clickStatus .accept true 7) "r1" .accepted (by decide)

theorem initRequestDetail_participantsInv (uid : Option String) (req : RequestRow)
    (profs : List ProfileRow) (wf : Option WorkMini)
    (table : List MessagesTableRow) :
    participantsInv req.creator_id req.client_id
      (initRequestDetail uid (some req) profs wf table) := by
  intro v hv
  simp only [initRequestDetail] at hv
  split at hv
  · simp [initialPageState] at hv
  · rename_i hcond
    simp only [Option.some.injEq] at hv
    subst hv
    refine ⟨rfl, rfl, ?_⟩
    rcases uid with _ | u
    · simp at hcond
    · by_cases h1 : u = req.creator_id
      · exact Or.inl (by simp [h1])
      · by_cases h2 : u = req.client_id
        · exact Or.inr (by simp [h2])
        · exact absurd (by simp [h1, h2]) hcond

theorem stepEv_preserves_participantsInv (cId clId : String) (s : PageState)
    (e : Event) (hs : participantsInv cId clId s) :
    participantsInv cId clId (stepEv s e).1 := by
  obtain ⟨view, status, sm, us, nm, snd, em⟩ := s
  cases em with
  | some m => simpa only [stepEv] using hs
  | none =>
    cases view with
    | none => simpa only [stepEv] using hs
    | some v0 =>
      cases e with
      | editDraft t =>
        intro v hv
        simp only [stepEv] at hv
        split at hv
        · simp only at hv
          obtain rfl := Option.some.inj hv
          exact hs v0 rfl
        · exact hs v hv
      | clickSend r =>
        intro v hv
        simp only [stepEv] at hv
        split at hv
        · unfold handleSendMessage at hv
          simp only at hv
          split at hv
          · simp at hv
            obtain rfl := hv
            exact hs v0 rfl
          · rename_i uid hu
            split at hv
            · simp at hv
              obtain rfl := hv
              exact hs v0 rfl
            · cases r with
              | none =>
                simp only at hv
                obtain rfl := Option.some.inj hv
                exact hs v0 rfl
              | some row =>
                simp only at hv
                obtain rfl := Option.some.inj hv
                simpa using hs v0 rfl
        · exact hs v hv
      | clickStatus a ok now =>
        intro v hv
        simp only [stepEv] at hv
        split at hv
        · unfold updateStatus at hv
          simp only at hv
          split at hv
          · simp only at hv
            obtain rfl := Option.some.inj hv
            simpa using hs v0 rfl
          · simp only at hv
            obtain rfl := Option.some.inj hv
            exact hs v0 rfl
        · exact hs v hv

theorem stepEv_messageInsert_sender (s : PageState) (e : Event) (rid sid : String)
    (b : JStr) (h : DbWrite.messageInsert rid sid b ∈ (stepEv s e).2) :
    ∃ v, s.view = some v ∧ v.currentUserId = some sid ∧
      sendFormShownB v s.status = true := by
  obtain ⟨view, status, sm, us, nm, snd, em⟩ := s
  cases em with
  | some m => simp [stepEv] at h
  | none =>
    cases view with
    | none => simp [stepEv] at h
    | some v =>
      cases e with
      | editDraft t =>
        simp only [stepEv] at h
        split at h <;> simp at h
      | clickStatus a ok now =>
        simp only [stepEv] at h
        split at h
        · obtain ⟨v', hv', hw⟩ := updateStatus_writes h
          simp at hw
        · simp at h
      | clickSend r =>
        simp only [stepEv] at h
        split at h
        · rename_i hg
          obtain ⟨v', uid, hv', hu, hne, hw⟩ := handleSendMessage_writes h
          simp only [Option.some.injEq] at hv'
          subst hv'
          obtain ⟨hw1, hw2, hw3⟩ := DbWrite.messageInsert.inj hw
          refine ⟨v, rfl, ?_, ?_⟩
          · rw [hu, hw2]
          · exact ((Bool.and_eq_true _ _).mp hg).1
        · simp at h

theorem runWrites_messageInsert_participant (cId clId : String) (es : List Event) :
    ∀ (s : PageState), participantsInv cId clId s →
      ∀ (rid sid : String) (b : JStr),
        DbWrite.messageInsert rid sid b ∈ runWrites s es →
        sid = cId ∨ sid = clId := by
  induction es with
  | nil => intro s hs rid sid b h; simp [runWrites] at h
  | cons e es ih =>
    intro s hs rid sid b h
    simp only [runWrites, List.mem_append] at h
    cases h with
    | inl h =>
      obtain ⟨v, hv, hu, hform⟩ := stepEv_messageInsert_sender s e rid sid b h
      obtain ⟨h1, h2, h3⟩ := hs v hv
      cases h3 with
      | inl h3 => exact Or.inl (by rw [← h1]; exact Option.some.inj (hu ▸ h3))
      | inr h3 => exact Or.inr (by rw [← h2]; exact Option.some.inj (hu ▸ h3))
    | inr h =>
      exact ih (stepEv s e).1 (stepEv_preserves_participantsInv cId clId s e hs)
        rid sid b h

/-- C3: a message insert carries a sender who is one of the two participants of
the request the screen was opened for (first clause, over every event sequence
starting from the initial load), and from any state whose status is `rejected`
or `closed` the send form is not offered and no message insert is issued
(second clause). -/
theorem message_insert_only_participants_while_open
    (uid : Option String) (req : RequestRow) (profs : List ProfileRow)
    (wf : Option WorkMini) (table : List MessagesTableRow) (es : List Event)
    (s : PageState) (e : Event) (rid sid : String) (b : JStr) (vv : ViewModel) :
    (DbWrite.messageInsert rid sid b ∈
        runWrites (initRequestDetail uid (some req) profs wf table) es →
      sid = req.creator_id ∨ sid = req.client_id) ∧
    ((s.status = .rejected ∨ s.status = .closed) →
      (s.view = some vv → sendFormShownB vv s.status = false) ∧
        DbWrite.messageInsert rid sid b ∉ (stepEv s e).2) := by
  constructor
  · intro h
    exact runWrites_messageInsert_participant req.creator_id req.client_id es
      (initRequestDetail uid (some req) profs wf table)
      (initRequestDetail_participantsInv uid req profs wf table) rid sid b h
  · intro hstat
    constructor
    · intro _
      cases hstat with
      | inl hstat => simp [sendFormShownB, hstat]
      | inr hstat => simp [sendFormShownB, hstat]
    · intro h
      obtain ⟨v, hv, hu, hform⟩ := stepEv_messageInsert_sender s e rid sid b h
      cases hstat with
      | inl hstat => simp [sendFormShownB, hstat] at hform
      | inr hstat => simp [sendFormShownB, hstat] at hform

/-- Witness for C3 at a concrete input: the client of `sampleRequest` types a
draft and sends it, and the issued insert's sender is a participant; the
second clause is instantiated at a closed-status state of the same client,
where the form is not offered and a send click issues nothing. -/
theorem message_insert_only_participants_while_open_witness :
    ("k1" = sampleRequest.creator_id ∨ "k1" = sampleRequest.client_id) ∧
      sendFormShownB sampleClientView
          ({ sampleDraftState with status := Status.closed } : PageState).status =
        false ∧
      DbWrite.messageInsert "r1" "k1" "hi".toList ∉
        (stepEv { sampleDraftState with status := Status.closed }
          (.clickSend none)).2 :=
  ⟨(message_insert_only_participants_while_open (some "k1") sampleRequest [] none
      [] [.editDraft "hi".toList, .clickSend (some ⟨"m1", "k1", "hi".toList, 5⟩)]
      initialPageState (.editDraft []) "r1" "k1" "hi".toList
      sampleClientView).1 (by decide),
    ((message_insert_only_participants_while_open (some "k1") sampleRequest []
        none [] [] { sampleDraftState with status := Status.closed }
        (.clickSend none) "r1" "k1" "hi".toList sampleClientView).2
        (Or.inr rfl)).1 rfl,
    ((message_insert_only_participants_while_open (some "k1") sampleRequest []
        none [] [] { sampleDraftState with status := Status.closed }
        (.clickSend none) "r1" "k1" "hi".toList sampleClientView).2
        (Or.inr rfl)).2⟩

theorem fetchThreadMessages_sorted (table : List MessagesTableRow) (rid : String) :
    (fetchThreadMessages table rid).Pairwise
      (fun a b => a.created_at ≤ b.created_at) := by
  unfold fetchThreadMessages
  refine List.Pairwise.map _ (fun a b h => h) ?_
  exact List.sorted_insertionSort _ _

theorem initRequestDetail_msgs_sorted (uid : Option String)
    (reqFetch : Option RequestRow) (profs : List ProfileRow)
    (wf : Option WorkMini) (table : List MessagesTableRow) :
    (stateMsgs (initRequestDetail uid reqFetch profs wf table)).Pairwise
      (fun a b => a.created_at ≤ b.created_at) := by
  cases reqFetch with
  | none => simp [initRequestDetail, stateMsgs, initialPageState]
  | some req =>
    simp only [initRequestDetail]
    split
    · simp [stateMsgs, initialPageState]
    · simpa [stateMsgs] using fetchThreadMessages_sorted table req.id

theorem stepEv_stateMsgs (s : PageState) (e : Event) :
    stateMsgs (stepEv s e).1 = stateMsgs s ∨
      ∃ row, e = .clickSend (some row) ∧
        stateMsgs (stepEv s e).1 = stateMsgs s ++ [row] := by
  obtain ⟨view, status, sm, us, nm, snd, em⟩ := s
  cases em with
  | some m => exact Or.inl rfl
  | none =>
    cases view with
    | none => exact Or.inl rfl
    | some v =>
      cases e with
      | editDraft t =>
        simp only [stepEv]
        split <;> exact Or.inl rfl
      | clickStatus a ok now =>
        simp only [stepEv]
        split
        · unfold updateStatus
          simp only
          split <;> exact Or.inl rfl
        · exact Or.inl rfl
      | clickSend r =>
        simp only [stepEv]
        split
        · unfold handleSendMessage
          simp only
          split
          · exact Or.inl rfl
          · split
            · exact Or.inl rfl
            · cases r with
              | none => exact Or.inl rfl
              | some row =>
                exact Or.inr ⟨row, rfl, by simp [stateMsgs]⟩
        · exact Or.inl rfl

theorem runTrace_sorted (es : List Event) :
    ∀ s : PageState,
      (stateMsgs s).Pairwise (fun a b => a.created_at ≤ b.created_at) →
      sendsMonotone s es →
      (stateMsgs (runTrace s es)).Pairwise
        (fun a b => a.created_at ≤ b.created_at) := by
  induction es with
  | nil => intro s h _; exact h
  | cons e es ih =>
    intro s h hm
    rw [sendsMonotone] at hm
    obtain ⟨hme, hmrest⟩ := hm
    simp only [runTrace]
    apply ih _ _ hmrest
    rcases stepEv_stateMsgs s e with heq | ⟨row, herow, heq⟩
    · rw [heq]; exact h
    · rw [heq]
      subst herow
      refine List.pairwise_append.mpr ⟨h, List.pairwise_singleton _ _, ?_⟩
      intro a ha b hb
      simp only [List.mem_singleton] at hb
      subst hb
      exact hme a ha

/-- C4: starting from the initial load (whose thread query orders messages by
`created_at` ascending) and running any sequence of events, the in-memory
message list stays non-decreasing in `created_at`, under the hypothesis that
the backend assigns each successfully sent message a `created_at` no earlier
than all messages already in the list. -/
theorem thread_sorted_under_monotone_backend (uid : Option String)
    (reqFetch : Option RequestRow) (profs : List ProfileRow)
    (wf : Option WorkMini) (table : List MessagesTableRow) (es : List Event)
    (hm : sendsMonotone (initRequestDetail uid reqFetch profs wf table) es) :
    (stateMsgs (runTrace (initRequestDetail uid reqFetch profs wf table) es)).Pairwise
      (fun a b => a.created_at ≤ b.created_at) :=
  runTrace_sorted es (initRequestDetail uid reqFetch profs wf table)
    (initRequestDetail_msgs_sorted uid reqFetch profs wf table) hm

/-- Witness for C4 at a concrete input: the client opens a thread with one
fetched message and sends one more with a later timestamp; the resulting list
is sorted. -/
theorem thread_sorted_under_monotone_backend_witness :
    (stateMsgs (runTrace
        (initRequestDetail (some "k1") (some sampleRequest) [] none
          [⟨"m0", "r1", "c1", "yo".toList, 3, false⟩])
        [Event.clickSend (some ⟨"m1", "k1", "hi".toList, 5⟩)])).Pairwise
      (fun a b => a.created_at ≤ b.created_at) :=
  thread_sorted_under_monotone_backend (some "k1") (some sampleRequest) [] none
    [⟨"m0", "r1", "c1", "yo".toList, 3, false⟩]
    [Event.clickSend (some ⟨"m1", "k1", "hi".toList, 5⟩)]
    (by refine ⟨?_, trivial⟩; decide)

/-- C5: when the message form is shown and enabled, a failed send (`none` from
the backend) leaves the local state unchanged except for the error banner; in
particular the draft text and the in-memory message list are untouched.  A
successful send appends the returned row and clears the draft (and only a
successful send clears it). -/
theorem send_failure_preserves_draft (s : PageState) (v : ViewModel)
    (row : MessageRow) (hv : s.view = some v) (herr : s.errorMsg = none)
    (hform : sendFormShownB v s.status = true) (hsending : s.sending = false)
    (hne : (strTrim s.newMessage).isEmpty = false) :
    (stepEv s (.clickSend none)).1 = { s with errorMsg := some sendFailText } ∧
      (stepEv s (.clickSend (some row))).1 =
        { s with
          view := some { v with messages := v.messages ++ [row] },
          newMessage := [], errorMsg := none } := by
  obtain ⟨view, status, sm, us, nm, snd, em⟩ := s
  simp only at hv herr hsending hne
  subst em
  subst snd
  subst hv
  have hu := ((Bool.and_eq_true _ _).mp ((Bool.and_eq_true _ _).mp hform).1).1
  obtain ⟨uid, huid⟩ := Option.isSome_iff_exists.mp hu
  constructor
  · simp [stepEv, hform, hne, handleSendMessage, huid]
  · simp [stepEv, hform, hne, handleSendMessage, huid]

/-- Witness for C5 at a concrete input: in the client's draft state, a failed
send only sets the error banner, and a successful send appends the row and
clears the draft. -/
theorem send_failure_preserves_draft_witness :
    (stepEv sampleDraftState (.clickSend none)).1 =
        { sampleDraftState with errorMsg := some sendFailText } ∧
      (stepEv sampleDraftState
            (.clickSend (some ⟨"m1", "k1", "hi".toList, 5⟩))).1 =
        { sampleDraftState with
          view := some { sampleClientView with
                         messages := sampleClientView.messages ++
                           [⟨"m1", "k1", "hi".toList, 5⟩] },
          newMessage := [], errorMsg := none } :=
  send_failure_preserves_draft sampleDraftState sampleClientView
    ⟨"m1", "k1", "hi".toList, 5⟩ rfl rfl (by decide) rfl (by decide)

/-- C6: a viewer who is neither the creator nor the client of the request
(including a logged-out viewer) gets a state whose view model is empty and
whose error is the permission-denied message; the screen renders only that
error (none of the request's data), and every subsequent event is a no-op
issuing no write. -/
theorem non_participant_sees_permission_denied (uid : Option String)
    (req : RequestRow) (profs : List ProfileRow) (wf : Option WorkMini)
    (table : List MessagesTableRow) (e : Event)
    (h1 : uid ≠ some req.creator_id) (h2 : uid ≠ some req.client_id) :
    (initRequestDetail uid (some req) profs wf table).view = none ∧
      (initRequestDetail uid (some req) profs wf table).errorMsg =
        some permissionDeniedText ∧
      render (initRequestDetail uid (some req) profs wf table) =
        .errorScreen permissionDeniedText ∧
      stepEv (initRequestDetail uid (some req) profs wf table) e =
        (initRequestDetail uid (some req) profs wf table, []) := by
  have hC : (uid == some req.creator_id) = false := beq_eq_false_iff_ne.mpr h1
  have hK : (uid == some req.client_id) = false := beq_eq_false_iff_ne.mpr h2
  have hstate : initRequestDetail uid (some req) profs wf table =
      { initialPageState with
        status := req.status, errorMsg := some permissionDeniedText } := by
    simp [initRequestDetail, hC, hK]
  rw [hstate]
  exact ⟨rfl, rfl, rfl, rfl⟩

/-- Witness for C6 at a concrete input: the unrelated user `"u9"` opening
`sampleRequest` is denied, sees the error screen only, and clicking send does
nothing. -/
theorem non_participant_sees_permission_denied_witness :
    (initRequestDetail (some "u9") (some sampleRequest) [] none []).view = none ∧
      (initRequestDetail (some "u9") (some sampleRequest) [] none []).errorMsg =
        some permissionDeniedText ∧
      render (initRequestDetail (some "u9") (some sampleRequest) [] none []) =
        .errorScreen permissionDeniedText ∧
      stepEv (initRequestDetail (some "u9") (some sampleRequest) [] none [])
          (.clickSend (some ⟨"m1", "u9", "hi".toList, 5⟩)) =
        (initRequestDetail (some "u9") (some sampleRequest) [] none [], []) :=
  non_participant_sees_permission_denied (some "u9") sampleRequest [] none []
    (.clickSend (some ⟨"m1", "u9", "hi".toList, 5⟩)) (by decide) (by decide)

end RequestDetail

theorem mem_worksPageFetch {table : List WorksTableRow} {w : WorksTableRow}
    (h : w ∈ WorksList.worksPageFetch table) : w.is_public = some true := by
  unfold WorksList.worksPageFetch at h
  have h2 := (List.perm_insertionSort
    (fun a b : WorksTableRow => b.created_at ≤ a.created_at) _).mem_iff.mp h
  exact eq_of_beq (List.mem_filter.mp h2).2

/-- C7 counterexample: the work detail screen shows a work whose `is_public`
is `false` to a viewer who is not its owner — `WorkDetailPage.init` fetches the
work by id with no visibility condition, so the claim fails on the detail
screen. -/
theorem private_work_shown_on_detail_cex :
    WorkDetail.workDetailRender
        (WorkDetail.initWorkDetail (some cexPrivateWork) none (some "u1")) =
      .workShown cexPrivateWork false ∧
      cexPrivateWork.is_public = some false ∧
      (some "u1" : Option String) ≠ some cexPrivateWork.creator_id := by
  decide

/-- C7 amended: on the works list and on another user's profile, only works
with `is_public = true` are shown to a non-owner; the work detail screen is
excluded because it renders the work regardless of `is_public`. -/
theorem is_public_gating_on_list_and_profile (table : List WorksTableRow)
    (w : WorksTableRow) (uid : Option String)
    (prof : ProfilePage.FullProfileRow) (v : ProfilePage.ProfileViewModel)
    (w2 : WorksTableRow) :
    (w ∈ WorksList.worksPageFetch table → w.is_public = some true) ∧
      (uid ≠ some prof.id →
        (ProfilePage.initProfileDetail uid (some prof) table).view = some v →
        w2 ∈ v.works → w2.is_public = some true) := by
  constructor
  · exact fun h => mem_worksPageFetch h
  · intro hne hv hmem
    have hme : (uid == some prof.id) = false := beq_eq_false_iff_ne.mpr hne
    simp only [ProfilePage.initProfileDetail, hme, Option.some.injEq] at hv
    subst hv
    simp only at hmem
    split at hmem
    · simp only [Bool.false_eq_true, if_false] at hmem
      exact eq_of_beq (List.mem_filter.mp hmem).2
    · simp at hmem

/-- Witness for C7 at concrete inputs: a public work passing the list filter
and the profile filter indeed has `is_public = true`. -/
theorem is_public_gating_on_list_and_profile_witness :
    cexPublicWork.is_public = some true ∧ cexPublicWork.is_public = some true :=
  ⟨(is_public_gating_on_list_and_profile [cexPublicWork, cexPrivateWork]
      cexPublicWork (some "u1") sampleProfile sampleProfileView cexPublicWork).1
      (by decide),
    (is_public_gating_on_list_and_profile [cexPublicWork, cexPrivateWork]
      cexPublicWork (some "u1") sampleProfile sampleProfileView cexPublicWork).2
      (by decide) (by decide) (by decide)⟩

/-- C8 counterexample: with `is_public` initially `null`, two successful
visibility toggles end at `false`, not at the original `null` — the round trip
fails in the `null` case the claim includes. -/
theorem toggle_twice_from_null_cex :
    (WorkDetail.handleToggleVisibility
        (WorkDetail.handleToggleVisibility
          (WorkDetail.initWorkDetail (some cexNullWork) none (some "c1")) true)
        true).work.map (fun x => x.is_public) = some (some false) ∧
      cexNullWork.is_public = none ∧
      (some false : Option Bool) ≠ (none : Option Bool) := by
  decide

/-- C8 amended: two successful visibility toggles set `is_public` to the
truthiness of the original value: the original value is restored whenever it
was a boolean, while an original `null` ends at `false`. -/
theorem toggle_twice_restores_truthiness (s : WorkDetail.WorkDetailState)
    (w : WorksTableRow) (hw : s.work = some w) :
    (WorkDetail.handleToggleVisibility
        (WorkDetail.handleToggleVisibility s true) true).work.map
      (fun x => x.is_public) = some (some (jsTruthy w.is_public)) := by
  obtain ⟨wk, cp, io, uv, em⟩ := s
  simp only at hw
  subst hw
  rcases w with ⟨i, c, t, d, iu, tg, ip, ca⟩
  cases ip with
  | none => simp [WorkDetail.handleToggleVisibility, jsTruthy]
  | some b => cases b <;> simp [WorkDetail.handleToggleVisibility, jsTruthy]

/-- Witness for C8 at a concrete input: a work whose `is_public` is `true`
comes back to `true` after two successful toggles. -/
theorem toggle_twice_restores_truthiness_witness :
    (WorkDetail.handleToggleVisibility
        (WorkDetail.handleToggleVisibility
          (WorkDetail.initWorkDetail (some cexPublicWork) none (some "p1")) true)
        true).work.map (fun x => x.is_public) =
      some (some (jsTruthy cexPublicWork.is_public)) :=
  toggle_twice_restores_truthiness
    (WorkDetail.initWorkDetail (some cexPublicWork) none (some "p1"))
    cexPublicWork rfl

theorem headerIds_contains (reqs : List RequestRow) (u : String) (x : String) :
    ((((reqs.filter (fun r => r.creator_id == u)).map (fun r => r.id)) ++
        ((reqs.filter (fun r => r.client_id == u)).map (fun r => r.id))).dedup).contains
        x =
      reqs.any (fun r =>
        r.id == x && (r.creator_id == u || r.client_id == u)) := by
  apply Bool.coe_iff_coe.mp
  rw [List.elem_iff, List.any_eq_true]
  constructor
  · intro hx
    have hx2 := List.mem_dedup.mp hx
    rw [List.mem_append] at hx2
    rcases hx2 with hx2 | hx2 <;>
      obtain ⟨r, hr, hrx⟩ := List.mem_map.mp hx2 <;>
      obtain ⟨hrm, hcond⟩ := List.mem_filter.mp hr <;>
      exact ⟨r, hrm, by subst hrx; simp [hcond]⟩
  · intro hx
    obtain ⟨r, hrm, hcond⟩ := hx
    rw [Bool.and_eq_true, Bool.or_eq_true] at hcond
    obtain ⟨hid, hor⟩ := hcond
    apply List.mem_dedup.mpr
    rw [List.mem_append]
    rcases hor with hc | hc
    · exact Or.inl (List.mem_map.mpr
        ⟨r, List.mem_filter.mpr ⟨hrm, hc⟩, eq_of_beq hid⟩)
    · exact Or.inr (List.mem_map.mpr
        ⟨r, List.mem_filter.mpr ⟨hrm, hc⟩, eq_of_beq hid⟩)

/-- C9: the unread-count badge computed by `fetchHeaderInfo` equals the number
of messages that belong to a request where the current user is the creator or
the client, have `is_read = false`, and were not sent by the current user.  It
is a pure function of the current tables, recomputed from them on every
navigation. -/
theorem unread_count_matches_spec (reqs : List RequestRow)
    (msgs : List MessagesTableRow) (u : String) :
    AppHeader.fetchHeaderUnreadCount reqs msgs u =
      AppHeader.specUnreadCount reqs msgs u := by
  simp only [AppHeader.fetchHeaderUnreadCount, AppHeader.specUnreadCount]
  by_cases hempty : ((((reqs.filter (fun r => r.creator_id == u)).map
      (fun r => r.id)) ++ ((reqs.filter (fun r => r.client_id == u)).map
      (fun r => r.id))).dedup).isEmpty = true
  · rw [if_pos hempty]
    have hnil := List.isEmpty_iff.mp hempty
    have hall : ∀ m ∈ msgs,
        ¬((reqs.any (fun r =>
            r.id == m.request_id && (r.creator_id == u || r.client_id == u))
          && m.is_read == false && m.sender_id != u) = true) := by
      intro m hm
      have hc := headerIds_contains reqs u m.request_id
      rw [hnil] at hc
      simp only [List.contains, List.elem] at hc
      simp [← hc]
    rw [List.filter_eq_nil_iff.mpr hall]
    rfl
  · rw [if_neg hempty]
    congr 1
    apply List.filter_congr
    intro m hm
    rw [headerIds_contains reqs u m.request_id]

/-- C10: the like button never issues an ill-authorized write: with no user
logged in, a click issues no `work_likes` insert or delete (when the button is
not disabled it redirects to the login screen instead); every insert or delete
carries the logged-in user's id, and an insert's user id is never the work's
`creator_id` (the owner's click is a no-op).  As the statement quantifies over
every button state, it covers every sequence of clicks. -/
theorem like_writes_require_foreign_user (s : LikeButton.LikeState) (ok : Bool)
    (wid u : String) :
    (s.currentUserId = none →
      LikeButton.LikeEffect.insertLike wid u ∉ (LikeButton.handleToggleLike s ok).2 ∧
        LikeButton.LikeEffect.deleteLike wid u ∉
          (LikeButton.handleToggleLike s ok).2) ∧
      (s.currentUserId = none → s.loading = false → s.toggling = false →
        (LikeButton.handleToggleLike s ok).2 =
          [.redirectLogin (LikeButton.loginNextUrl s.workId)]) ∧
      (LikeButton.LikeEffect.insertLike wid u ∈
          (LikeButton.handleToggleLike s ok).2 →
        s.currentUserId = some u ∧ u ≠ s.creatorId) ∧
      (LikeButton.LikeEffect.deleteLike wid u ∈
          (LikeButton.handleToggleLike s ok).2 →
        s.currentUserId = some u) ∧
      (s.currentUserId = some s.creatorId →
        LikeButton.handleToggleLike s ok = (s, [])) := by
  obtain ⟨wid0, cid, cu, lc, lk, ld, tg, em⟩ := s
  refine ⟨?_, ?_, ?_, ?_, ?_⟩
  · rintro rfl
    cases ld <;> cases tg <;> cases lk <;> cases ok <;>
      simp [LikeButton.handleToggleLike]
  · rintro rfl rfl rfl
    simp [LikeButton.handleToggleLike]
  · intro h
    simp only at h ⊢
    unfold LikeButton.handleToggleLike at h
    split at h
    · simp at h
    · rename_i hdis
      cases cu with
      | none => simp at h
      | some uid =>
        simp only at h
        split at h
        · simp at h
        · rename_i hown
          split at h
          · simp at h
          · split at h
            · split at h <;>
                · simp at h
                  obtain ⟨hw, hu⟩ := h
                  subst hu
                  exact ⟨rfl, by simpa using hown⟩
            · split at h <;> simp at h
  · intro h
    simp only at h ⊢
    unfold LikeButton.handleToggleLike at h
    split at h
    · simp at h
    · cases cu with
      | none => simp at h
      | some uid =>
        simp only at h
        split at h
        · simp at h
        · split at h
          · simp at h
          · split at h
            · split at h <;> simp at h
            · split at h <;>
                · simp at h
                  obtain ⟨hw, hu⟩ := h
                  subst hu
                  exact rfl
  · rintro hcu
    simp only at hcu
    subst hcu
    simp [LikeButton.handleToggleLike]

/-- Witness for C10 at a concrete input: a logged-in non-owner whose insert
click issues a write carrying their own id, which differs from the creator's. -/
theorem like_writes_require_foreign_user_witness :
    ({ workId := "w1", creatorId := "c1", currentUserId := some "u1",
       likeCount := 0, liked := false, loading := false, toggling := false,
       errorMsg := none } : LikeButton.LikeState).currentUserId = some "u1" ∧
      "u1" ≠ ({ workId := "w1", creatorId := "c1", currentUserId := some "u1",
                likeCount := 0, liked := false, loading := false,
                toggling := false,
                errorMsg := none } : LikeButton.LikeState).creatorId :=
  (like_writes_require_foreign_user
    { workId := "w1", creatorId := "c1", currentUserId := some "u1",
      likeCount := 0, liked := false, loading := false, toggling := false,
      errorMsg := none } true "w1" "u1").2.2.1 (by decide)

/-- C2 counterexample: at the concrete submitted values
`t = "  Photo shoot  "` and `m = " Available Saturday? "`, the created row's
`title` is the trimmed string, not `t`, and the initial message's `body` is the
trimmed `m`, which does not contain the raw `m` — so "title = t" and "body
containing m" fail verbatim for whitespace-padded input. -/
theorem request_insert_title_not_verbatim_cex :
    RequestNew.handleSubmit (some ⟨"K", none, some .client⟩) (some "C") none
        ("  Photo shoot  ".toList) (" Available Saturday? ".toList) [] [] "r1" =
      .submitted
        { creator_id := "C", client_id := "K", work_id := none,
          title := "Photo shoot".toList,
          message := "Available Saturday?".toList, status := .pending,
          preferred_date := none, budget := none }
        { request_id := "r1", sender_id := "K",
          body := "Available Saturday?".toList } ∧
      "Photo shoot".toList ≠ "  Photo shoot  ".toList ∧
      ¬(" Available Saturday? ".toList <:+: "Available Saturday?".toList) := by
  decide

/-- C2 amended: a logged-in client submitting the form with a title and message
whose trims are non-empty issues exactly one `requests` insert — with
`status = 'pending'`, `creator_id = C`, `client_id = K` and the trimmed title —
and exactly one initial `messages` insert with `sender_id = K` and a body
containing the trimmed message. -/
theorem request_submission_creates_pending_request (profile : ProfileRow)
    (cid : String) (wid : Option String) (t m pd b : JStr) (rid : String)
    (ht : (strTrim t).isEmpty = false) (hm : (strTrim m).isEmpty = false) :
    ∃ reqIns msgIns,
      RequestNew.handleSubmit (some profile) (some cid) wid t m pd b rid =
          .submitted reqIns msgIns ∧
        reqIns.status = .pending ∧ reqIns.creator_id = cid ∧
        reqIns.client_id = profile.id ∧ reqIns.title = strTrim t ∧
        msgIns.sender_id = profile.id ∧ msgIns.request_id = rid ∧
        strTrim m <:+: msgIns.body := by
  simp only [RequestNew.handleSubmit, ht, hm, Bool.or_self, Bool.false_eq_true,
    if_false]
  exact ⟨_, _, rfl, rfl, rfl, rfl, rfl, rfl, rfl, List.infix_refl _⟩

/-- Witness for C2 at a concrete input: the client `"K"` submitting toward
creator `"C"` with already-trimmed values. -/
theorem request_submission_creates_pending_request_witness :
    ∃ reqIns msgIns,
      RequestNew.handleSubmit (some ⟨"K", none, some .client⟩) (some "C") none
          ("Photo shoot".toList) ("Available Saturday?".toList) [] [] "r1" =
          .submitted reqIns msgIns ∧
        reqIns.status = .pending ∧ reqIns.creator_id = "C" ∧
        reqIns.client_id = (⟨"K", none, some .client⟩ : ProfileRow).id ∧
        reqIns.title = strTrim ("Photo shoot".toList) ∧
        msgIns.sender_id = (⟨"K", none, some .client⟩ : ProfileRow).id ∧
        msgIns.request_id = "r1" ∧
        strTrim ("Available Saturday?".toList) <:+: msgIns.body :=
  request_submission_creates_pending_request ⟨"K", none, some .client⟩ "C" none
    ("Photo shoot".toList) ("Available Saturday?".toList) [] [] "r1"
    (by decide) (by decide)

end Connectry
